import Mathlib

/-!
Verification of the aircade-api session relay subsystem.

The definitions below are a shallow embedding of the Rust sources:
  * `src/sessions/mod.rs`   — `ClientRole`, `SessionManager` delivery functions
  * `src/routes/sessions.rs` — session code generation, REST handlers
    (`join_session`, `end_session`, `load_game`) and the WebSocket relay
    (`handle_ws_message`, the inbound connection loop).

Modelling conventions:
  * `Uuid` is modelled as `Nat`.
  * Timestamps (`DateTimeWithTimeZone`) are modelled as `Nat`.
  * `serde_json::Value` is modelled by the inductive `Json`; a parse of an
    inbound text frame is an `Option Json` (`none` = malformed JSON,
    mirroring the `Err(_) => return` arm of `serde_json::from_str`).
  * The persistent store is a record of lists of rows; SeaORM's
    `find…one(db)` is `List.find?` (first matching row in table order), and
    a filtered `…one(db)` with no ORDER BY is `List.head?` of the filtered
    rows.
  * The `SessionManager` registry for one session is the list of registered
    `ClientRole`s (DashMap keys); delivery functions return the list of
    (recipient, message) pairs actually sent.
-/

-- ─────────────────────────────────────────────────────────────────────────
-- JSON values (serde_json::Value)
-- ─────────────────────────────────────────────────────────────────────────

/-- Model of `serde_json::Value`. Numbers are restricted to naturals, which
suffices for the identifiers and payloads appearing in this subsystem. -/
inductive Json where
  | null
  | bool (b : Bool)
  | num (n : Nat)
  | str (s : String)
  | arr (elems : List Json)
  | obj (fields : List (String × Json))

/-- Field lookup on a JSON object: `Value::get` on objects (first matching
key), `None` on non-objects. -/
def Json.getField : Json → String → Option Json
  | .obj fields, key => fields.lookup key
  | _, _ => none

/-- Model of `serde_json::Value`'s `Index<&str>`: indexing a missing field or
a non-object yields `Value::Null`. This is the semantics of
`parsed["payload"]["inputType"]` in the source. -/
def Json.index (j : Json) (key : String) : Json :=
  (j.getField key).getD .null

/-- Model of `Value::as_str`. -/
def Json.asStr : Json → Option String
  | .str s => some s
  | _ => none

/-- The `type` discriminator of an inbound frame:
`parsed.get("type").and_then(Value::as_str).unwrap_or_default()`. -/
def msgType (parsed : Json) : String :=
  ((parsed.getField "type").bind Json.asStr).getD ""

-- ─────────────────────────────────────────────────────────────────────────
-- ClientRole and SessionManager delivery (src/sessions/mod.rs)
-- ─────────────────────────────────────────────────────────────────────────

/-- `Uuid` is modelled as a natural number. -/
abbrev Uuid := Nat

/-- Identifies a connected client within a session (`ClientRole`). -/
inductive ClientRole where
  | Host
  | Player (playerId : Uuid)
deriving DecidableEq

/-- True exactly on `Player(_)` roles: `matches!(key, ClientRole::Player(_))`. -/
def ClientRole.isPlayerRole : ClientRole → Bool
  | .Player _ => true
  | .Host => false

/-- The registry entry of one session: the set of currently registered
client roles (the keys of the per-session `DashMap<ClientRole, WsTx>`). -/
abbrev Registry := List ClientRole

/-- `SessionManager::send_to_host`: best-effort delivery to the `Host` key if
registered; a missing recipient is a silent no-op. Returns the deliveries
performed. -/
def send_to_host (registry : Registry) (message : Json) : List (ClientRole × Json) :=
  if ClientRole.Host ∈ registry then [(ClientRole.Host, message)] else []

/-- `SessionManager::broadcast_to_players`: delivery to every registered
`Player(_)` key, skipping `Host`. Returns the deliveries performed. -/
def broadcast_to_players (registry : Registry) (message : Json) : List (ClientRole × Json) :=
  (registry.filter ClientRole.isPlayerRole).map (fun r => (r, message))

/-- `SessionManager::broadcast`: delivery to every registered key. -/
def broadcast_all (registry : Registry) (message : Json) : List (ClientRole × Json) :=
  registry.map (fun r => (r, message))

-- ─────────────────────────────────────────────────────────────────────────
-- WebSocket message routing (src/routes/sessions.rs, handle_ws_message)
-- ─────────────────────────────────────────────────────────────────────────

/-- The relayed `player_input_event` message built by `handle_ws_message` for
an inbound `player_input` frame from player `player_id`. -/
def playerInputEventMsg (player_id : Uuid) (parsed : Json) : Json :=
  .obj [("type", .str "player_input_event"),
        ("payload", .obj [("playerId", .num player_id),
                          ("inputType", (parsed.index "payload").index "inputType"),
                          ("data", (parsed.index "payload").index "data")])]

/-- The relayed `game_state` message built by `handle_ws_message` for an
inbound `game_state_update` frame from the host. -/
def gameStateMsg (parsed : Json) : Json :=
  .obj [("type", .str "game_state"), ("payload", parsed.index "payload")]

/-- `handle_ws_message`: route an inbound text frame (`parsed? = none` when
`serde_json::from_str` failed) according to its `type` field and the sender
role, returning the deliveries made through the session manager. -/
def handle_ws_message (registry : Registry) (role : ClientRole) (parsed? : Option Json) :
    List (ClientRole × Json) :=
  match parsed? with
  | none => []
  | some parsed =>
    match msgType parsed, role with
    | "player_input", .Player player_id =>
        send_to_host registry (playerInputEventMsg player_id parsed)
    | "game_state_update", .Host =>
        broadcast_to_players registry (gameStateMsg parsed)
    | _, _ => []

/-- One inbound event of the connection loop of `handle_ws_connection`. -/
inductive WsIncoming where
  | text (parsed? : Option Json)
  | close
  | other

/-- One step of the inbound loop of `handle_ws_connection`: a text frame is
routed and the loop continues; a close frame stops the loop; other frames
are skipped. Returns the deliveries and whether the loop continues. -/
def connection_step (registry : Registry) (role : ClientRole) (incoming : WsIncoming) :
    List (ClientRole × Json) × Bool :=
  match incoming with
  | .text parsed? => (handle_ws_message registry role parsed?, true)
  | .close => ([], false)
  | .other => ([], true)

-- ─────────────────────────────────────────────────────────────────────────
-- Persisted entities (src/entities/*.rs)
-- ─────────────────────────────────────────────────────────────────────────

namespace session

/-- Row of the `session` table (`src/entities/session.rs`). -/
structure Model where
  id : Uuid
  created_at : Nat
  updated_at : Nat
  ended_at : Option Nat
  host_id : Uuid
  game_id : Option Uuid
  game_version_id : Option Uuid
  session_code : String
  status : String
  max_players : Int
deriving DecidableEq

end session

namespace player

/-- Row of the `player` table (`src/entities/player.rs`). -/
structure Model where
  id : Uuid
  created_at : Nat
  session_id : Uuid
  user_id : Option Uuid
  display_name : String
  avatar_url : Option String
  connection_status : String
  left_at : Option Nat
deriving DecidableEq

end player

namespace game

/-- Row of the `game` table (`src/entities/game.rs`), projected onto the
columns the session routes read (`id`, `status`, `published_version_id`);
the remaining columns (title, slug, counters, the `f32` rating, …) are
never consulted by this subsystem. -/
structure Model where
  id : Uuid
  status : String
  published_version_id : Option Uuid
deriving DecidableEq

end game

namespace game_version

/-- Row of the `game_version` table (`src/entities/game_version.rs`). -/
structure Model where
  id : Uuid
  created_at : Nat
  game_id : Uuid
  version_number : Int
  game_screen_code : Option String
  controller_screen_code : Option String
  change_log : Option String
deriving DecidableEq

end game_version

/-- The persistent store: lists of rows, in table order. -/
structure Db where
  sessions : List session.Model
  players : List player.Model
  games : List game.Model
  game_versions : List game_version.Model
deriving DecidableEq

/-- Application error type (`src/error.rs`); `Internal` wraps an opaque
`anyhow::Error` and is modelled as a bare constructor. -/
inductive AppError where
  | BadRequest (msg : String)
  | Unauthorized (msg : String)
  | Forbidden (msg : String)
  | NotFound (msg : String)
  | Conflict (msg : String)
  | PayloadTooLarge (msg : String)
  | UnprocessableEntity (msg : String)
  | Unprocessable (code msg : String)
  | Internal
deriving DecidableEq

/-- True exactly on `BadRequest` errors. -/
def AppError.isBadRequest : AppError → Bool
  | .BadRequest _ => true
  | _ => false

/-- A call into the `SessionManager` performed by a REST handler. -/
inductive WsEffect where
  | broadcastMsg (session_id : Uuid) (message : Json)
  | sendHostMsg (session_id : Uuid) (message : Json)
  | sendPlayersMsg (session_id : Uuid) (message : Json)
  | removeSessionEntry (session_id : Uuid)

/-- Model of Rust's `str::to_uppercase`, mapping each character to upper
case (ASCII suffices for the session codes this subsystem compares). -/
def toUppercase (s : String) : String :=
  String.mk (s.data.map Char.toUpper)

/-- Model of Rust's `str::trim`: drop leading and trailing whitespace. The
whitespace predicate is `Char.isWhitespace` (space, tab, CR, LF), which
covers the whitespace relevant to display names here. -/
def strTrim (s : String) : String :=
  String.mk (((s.data.dropWhile Char.isWhitespace).reverse.dropWhile Char.isWhitespace).reverse)

/-- Serialize an optional string the way `serde_json` does (`null` when
absent). -/
def jsonOfOptStr : Option String → Json
  | some s => .str s
  | none => .null

-- ─────────────────────────────────────────────────────────────────────────
-- Session code generation (src/routes/sessions.rs)
-- ─────────────────────────────────────────────────────────────────────────

/-- Characters used for session codes — excludes ambiguous chars (0/O, 1/I/L). -/
def SESSION_CODE_CHARS : List Char := "ABCDEFGHJKMNPQRSTUVWXYZ23456789".toList

/-- Length of a generated session code. -/
def SESSION_CODE_LENGTH : Nat := 5

/-- `random_session_code`: one character per draw of
`rng.gen_range(0..SESSION_CODE_CHARS.len())`; the random source is
abstracted as the function `draw` yielding the in-range index of each of
the `SESSION_CODE_LENGTH` steps. -/
def random_session_code (draw : Fin SESSION_CODE_LENGTH → Fin SESSION_CODE_CHARS.length) :
    String :=
  String.mk ((List.finRange SESSION_CODE_LENGTH).map (fun i => SESSION_CODE_CHARS.get (draw i)))

-- ─────────────────────────────────────────────────────────────────────────
-- REST handlers (src/routes/sessions.rs)
-- ─────────────────────────────────────────────────────────────────────────

/-- Request body of `POST /sessions/{code}/join`. -/
structure JoinSessionRequest where
  display_name : String
  avatar_url : Option String

/-- Response fragment `PlayerResponse` (timestamps kept as `Nat` instead of
RFC 3339 strings). -/
structure PlayerResponse where
  id : Uuid
  created_at : Nat
  display_name : String
  avatar_url : Option String
  connection_status : String
deriving DecidableEq

/-- Response fragment `SessionSummary`. -/
structure SessionSummary where
  id : Uuid
  session_code : String
  status : String
  host_id : Uuid
deriving DecidableEq

/-- Response body of a successful join. -/
structure JoinResponse where
  player : PlayerResponse
  session : SessionSummary
deriving DecidableEq

/-- `build_player_response`. -/
def build_player_response (p : player.Model) : PlayerResponse :=
  { id := p.id
    created_at := p.created_at
    display_name := p.display_name
    avatar_url := p.avatar_url
    connection_status := p.connection_status }

/-- `join_session` (`POST /sessions/{session_code}/join`). Arguments beyond
the request: `now` is `Utc::now()`, `new_player_id` the `Uuid::new_v4()`
drawn for the inserted row. Returns the handler result, the store after the
call, and the session-manager calls made. -/
def join_session (db : Db) (session_code : String) (body : JoinSessionRequest)
    (now : Nat) (new_player_id : Uuid) :
    Except AppError JoinResponse × Db × List WsEffect :=
  let code_upper := toUppercase session_code
  match db.sessions.find? (fun s => s.session_code == code_upper) with
  | none => (.error (.NotFound "Session not found."), db, [])
  | some sess =>
    if sess.status == "ended" then
      (.error (.BadRequest "Session has ended."), db, [])
    else
      let active_players := db.players.filter
        (fun p => p.session_id == sess.id && p.left_at == none)
      let max : Nat := if sess.max_players < 0 then 8 else sess.max_players.toNat
      if active_players.length ≥ max then
        (.error (.BadRequest "Session is full."), db, [])
      else
        let display_name := strTrim body.display_name
        if display_name.isEmpty ∨ display_name.utf8ByteSize > 100 then
          (.error (.BadRequest "Display name must be between 1 and 100 characters."), db, [])
        else
          let inserted_player : player.Model :=
            { id := new_player_id
              created_at := now
              session_id := sess.id
              user_id := none
              display_name := display_name
              avatar_url := body.avatar_url
              connection_status := "connected"
              left_at := none }
          let db' : Db := { db with players := db.players ++ [inserted_player] }
          let joined_msg : Json :=
            .obj [("type", .str "player_joined"),
                  ("payload", .obj [("player",
                    .obj [("id", .num inserted_player.id),
                          ("displayName", .str inserted_player.display_name),
                          ("avatarUrl", jsonOfOptStr inserted_player.avatar_url)])])]
          (.ok { player := build_player_response inserted_player
                 session := { id := sess.id
                              session_code := sess.session_code
                              status := sess.status
                              host_id := sess.host_id } },
           db',
           [.broadcastMsg sess.id joined_msg])

/-- `end_session` (`POST /sessions/{session_id}/end`); `host_id` is the
authenticated caller's user id, `now` is `Utc::now()`. -/
def end_session (db : Db) (host_id : Uuid) (session_id : Uuid) (now : Nat) :
    Except AppError Unit × Db × List WsEffect :=
  match db.sessions.find? (fun s => s.id == session_id) with
  | none => (.error (.NotFound "Session not found."), db, [])
  | some sess =>
    if sess.host_id ≠ host_id then
      (.error (.Forbidden "Only the session host can end the session."), db, [])
    else if sess.status == "ended" then
      (.error (.BadRequest "Session is already ended."), db, [])
    else
      let updated : session.Model :=
        { sess with status := "ended", ended_at := some now, updated_at := now }
      let db' : Db :=
        { db with sessions := db.sessions.map (fun s => if s.id == session_id then updated else s) }
      let status_msg : Json :=
        .obj [("type", .str "session_status_change"),
              ("payload", .obj [("status", .str "ended"),
                                ("previousStatus", .str "lobby")])]
      (.ok (), db', [.broadcastMsg session_id status_msg, .removeSessionEntry session_id])

/-- Response body of `load_game`. -/
structure LoadGameResponse where
  session_id : Uuid
  game_id : Uuid
  game_version_id : Uuid
  status : String
deriving DecidableEq

/-- `load_game` (`POST /sessions/{session_id}/game`); `host_id` is the
authenticated caller's user id, `game_id` the request body's `gameId`.
The published-version lookup is `find_by_id`; the fallback is a filtered
query with no ORDER BY, whose `.one()` takes the first row in table
order. -/
def load_game (db : Db) (host_id : Uuid) (session_id : Uuid) (game_id : Uuid) (now : Nat) :
    Except AppError LoadGameResponse × Db × List WsEffect :=
  match db.sessions.find? (fun s => s.id == session_id) with
  | none => (.error (.NotFound "Session not found."), db, [])
  | some sess =>
    if sess.host_id ≠ host_id then
      (.error (.Forbidden "Only the session host can load a game."), db, [])
    else if sess.status == "ended" then
      (.error (.BadRequest "Session has ended."), db, [])
    else
      match db.games.find? (fun g => g.id == game_id) with
      | none => (.error (.NotFound "Game not found."), db, [])
      | some found_game =>
        if found_game.status ≠ "published" then
          (.error (.BadRequest "Game is not published."), db, [])
        else
          let version? : Option game_version.Model :=
            match found_game.published_version_id with
            | some ver_id => db.game_versions.find? (fun v => v.id == ver_id)
            | none => (db.game_versions.filter (fun v => v.game_id == found_game.id)).head?
          match version? with
          | none => (.error (.NotFound "No game version found."), db, [])
          | some version =>
            let previous_status := sess.status
            let updated : session.Model :=
              { sess with game_id := some found_game.id
                          game_version_id := some version.id
                          status := "playing"
                          updated_at := now }
            let db' : Db :=
              { db with sessions :=
                  db.sessions.map (fun s => if s.id == session_id then updated else s) }
            let host_msg : Json :=
              .obj [("type", .str "game_loaded"),
                    ("payload", .obj [("gameId", .num found_game.id),
                                      ("gameVersionId", .num version.id),
                                      ("gameScreenCode", jsonOfOptStr version.game_screen_code)])]
            let player_msg : Json :=
              .obj [("type", .str "game_loaded"),
                    ("payload", .obj [("gameId", .num found_game.id),
                                      ("gameVersionId", .num version.id),
                                      ("controllerScreenCode",
                                        jsonOfOptStr version.controller_screen_code)])]
            let status_msg : Json :=
              .obj [("type", .str "session_status_change"),
                    ("payload", .obj [("status", .str "playing"),
                                      ("previousStatus", .str previous_status)])]
            (.ok { session_id := session_id
                   game_id := found_game.id
                   game_version_id := version.id
                   status := "playing" },
             db',
             [.sendHostMsg session_id host_msg,
              .sendPlayersMsg session_id player_msg,
              .broadcastMsg session_id status_msg])

-- ─────────────────────────────────────────────────────────────────────────
-- Theorems
-- ─────────────────────────────────────────────────────────────────────────

/-- C9: every join code produced by `random_session_code` has exactly 5
characters, every character belongs to `ABCDEFGHJKMNPQRSTUVWXYZ23456789`,
and the ambiguous glyphs `0`, `O`, `1`, `I`, `L` never appear. -/
theorem session_code_format (draw : Fin SESSION_CODE_LENGTH → Fin SESSION_CODE_CHARS.length) :
    (random_session_code draw).length = 5 ∧
    ∀ c ∈ (random_session_code draw).toList,
      c ∈ SESSION_CODE_CHARS ∧ c ∉ ['0', 'O', '1', 'I', 'L'] := by
  constructor
  · simp [random_session_code, SESSION_CODE_LENGTH, String.length]
  · intro c hc
    have hmem : c ∈ SESSION_CODE_CHARS := by
      simp only [random_session_code, String.toList, String.mk, List.mem_map] at hc
      obtain ⟨i, _, rfl⟩ := hc
      exact SESSION_CODE_CHARS.get_mem (draw i).1 (draw i).2
    refine ⟨hmem, ?_⟩
    revert hmem
    have : ∀ c ∈ SESSION_CODE_CHARS, c ∉ ['0', 'O', '1', 'I', 'L'] := by decide
    exact this c

/-- A payload is passed through when every field of the original payload
appears, with the same value, in the relayed payload. -/
def payloadPassedThrough (orig relayed : Json) : Prop :=
  ∀ key v, orig.getField key = some v → relayed.getField key = some v

/-- C1 counterexample: a `player_input` frame whose payload has a field other
than `inputType`/`data` is relayed to the host, but the relayed payload does
not carry that field — the original payload is not passed through. -/
theorem player_input_payload_not_passed_through :
    (handle_ws_message [ClientRole.Host] (.Player 7)
        (some (Json.obj [("type", .str "player_input"),
                         ("payload", .obj [("customField", .num 1)])]))
      = [(ClientRole.Host,
          playerInputEventMsg 7
            (Json.obj [("type", .str "player_input"),
                       ("payload", .obj [("customField", .num 1)])]))]) ∧
    ¬ payloadPassedThrough
        ((Json.obj [("type", .str "player_input"),
                    ("payload", .obj [("customField", .num 1)])]).index "payload")
        ((playerInputEventMsg 7
            (Json.obj [("type", .str "player_input"),
                       ("payload", .obj [("customField", .num 1)])])).index "payload") := by
  refine ⟨rfl, fun h => ?_⟩
  exact Option.noConfusion (h "customField" (.num 1) rfl)

/-- C1 (amended): a `player_input` frame from a connection registered as
`Player p` is relayed to the host only — delivered exactly to a registered
`Host`, never to any player — as a `player_input_event` whose payload
carries the sending player's id `p` and the `inputType` and `data` fields of
the original payload. -/
theorem player_input_relay (registry : Registry) (p : Uuid) (parsed : Json)
    (h : msgType parsed = "player_input") :
    (ClientRole.Host ∈ registry →
      handle_ws_message registry (.Player p) (some parsed) =
        [(ClientRole.Host, playerInputEventMsg p parsed)]) ∧
    (ClientRole.Host ∉ registry →
      handle_ws_message registry (.Player p) (some parsed) = []) ∧
    (∀ q m, (ClientRole.Player q, m) ∉ handle_ws_message registry (.Player p) (some parsed)) ∧
    (playerInputEventMsg p parsed).index "type" = .str "player_input_event" ∧
    ((playerInputEventMsg p parsed).index "payload").index "playerId" = .num p ∧
    ((playerInputEventMsg p parsed).index "payload").index "inputType"
        = (parsed.index "payload").index "inputType" ∧
    ((playerInputEventMsg p parsed).index "payload").index "data"
        = (parsed.index "payload").index "data" := by
  have hmsg : handle_ws_message registry (.Player p) (some parsed)
      = send_to_host registry (playerInputEventMsg p parsed) := by
    simp only [handle_ws_message, h]
  refine ⟨?_, ?_, ?_, rfl, rfl, rfl, rfl⟩
  · intro hmem
    rw [hmsg, send_to_host, if_pos hmem]
  · intro hmem
    rw [hmsg, send_to_host, if_neg hmem]
  · intro q m hd
    rw [hmsg] at hd
    unfold send_to_host at hd
    by_cases hmem : ClientRole.Host ∈ registry
    · rw [if_pos hmem] at hd
      simp at hd
    · rw [if_neg hmem] at hd
      simp at hd

/-- C1 witness: the relay theorem applied to a host-registered session and a
concrete `player_input` frame. -/
theorem player_input_relay_witness :
    handle_ws_message [ClientRole.Host] (.Player 7)
        (some (Json.obj [("type", .str "player_input"), ("payload", .obj [])]))
      = [(ClientRole.Host,
          playerInputEventMsg 7 (Json.obj [("type", .str "player_input"), ("payload", .obj [])]))] :=
  (player_input_relay [ClientRole.Host] 7
      (Json.obj [("type", .str "player_input"), ("payload", .obj [])]) rfl).1
    (by simp)

/-- The two (type, sender role) pairs that `handle_ws_message` relays; every
other inbound frame — malformed JSON included — falls to the catch-all arm. -/
def relayCase (role : ClientRole) (parsed? : Option Json) : Prop :=
  match parsed? with
  | none => False
  | some parsed =>
    (msgType parsed = "player_input" ∧ ∃ q, role = ClientRole.Player q) ∨
    (msgType parsed = "game_state_update" ∧ role = ClientRole.Host)

/-- C2: a `game_state_update` frame from the host is relayed as `game_state`,
payload passed through, to every registered player role and never to the
host; and every inbound frame outside the two relay cases — malformed JSON
included — produces no delivery and leaves the connection loop running. -/
theorem game_state_update_relay :
    (∀ (registry : Registry) (parsed : Json), msgType parsed = "game_state_update" →
      (∀ d ∈ handle_ws_message registry .Host (some parsed),
         d.1.isPlayerRole = true ∧ d.1 ∈ registry ∧ d.2 = gameStateMsg parsed) ∧
      (∀ r ∈ registry, r.isPlayerRole = true →
         (r, gameStateMsg parsed) ∈ handle_ws_message registry .Host (some parsed)) ∧
      (∀ m, (ClientRole.Host, m) ∉ handle_ws_message registry .Host (some parsed)) ∧
      (gameStateMsg parsed).index "type" = .str "game_state" ∧
      (gameStateMsg parsed).index "payload" = parsed.index "payload") ∧
    (∀ (registry : Registry) (role : ClientRole) (parsed? : Option Json),
      ¬ relayCase role parsed? →
      handle_ws_message registry role parsed? = [] ∧
      (connection_step registry role (.text parsed?)).2 = true) := by
  constructor
  · intro registry parsed hty
    have hmsg : handle_ws_message registry .Host (some parsed)
        = broadcast_to_players registry (gameStateMsg parsed) := by
      simp only [handle_ws_message, hty]
    refine ⟨?_, ?_, ?_, rfl, rfl⟩
    · intro d hd
      rw [hmsg] at hd
      unfold broadcast_to_players at hd
      simp only [List.mem_map, List.mem_filter] at hd
      obtain ⟨r, ⟨hrmem, hrp⟩, rfl⟩ := hd
      exact ⟨hrp, hrmem, rfl⟩
    · intro r hrmem hrp
      rw [hmsg]
      unfold broadcast_to_players
      simp only [List.mem_map, List.mem_filter]
      exact ⟨r, ⟨hrmem, hrp⟩, rfl⟩
    · intro m hd
      rw [hmsg] at hd
      unfold broadcast_to_players at hd
      simp only [List.mem_map, List.mem_filter] at hd
      obtain ⟨r, ⟨_, hrp⟩, heq⟩ := hd
      have hr : r = ClientRole.Host := congrArg Prod.fst heq
      rw [hr] at hrp
      exact Bool.noConfusion hrp
  · intro registry role parsed? hnot
    refine ⟨?_, rfl⟩
    cases parsed? with
    | none => rfl
    | some parsed =>
      have hnot' : (msgType parsed = "player_input" → ∀ x : Uuid, ¬ role = ClientRole.Player x) ∧
          (msgType parsed = "game_state_update" → ¬ role = ClientRole.Host) := by
        simpa [relayCase] using hnot
      simp only [handle_ws_message]
      split
      · rename_i player_id heq
        exact absurd rfl (hnot'.1 heq player_id)
      · rename_i heq
        exact absurd rfl (hnot'.2 heq)
      · rfl

/-- C2 witness: a relayed `game_state_update` at a concrete registry, and a
concrete unknown-type frame that is ignored. -/
theorem game_state_update_relay_witness :
    ((ClientRole.Player 3,
        gameStateMsg (Json.obj [("type", .str "game_state_update"), ("payload", .num 5)]))
      ∈ handle_ws_message [ClientRole.Host, ClientRole.Player 3] .Host
          (some (Json.obj [("type", .str "game_state_update"), ("payload", .num 5)]))) ∧
    handle_ws_message [ClientRole.Host, ClientRole.Player 3] (.Player 3)
        (some (Json.obj [("type", .str "bogus")])) = [] := by
  constructor
  · exact ((game_state_update_relay.1 [ClientRole.Host, ClientRole.Player 3]
        (Json.obj [("type", .str "game_state_update"), ("payload", .num 5)]) rfl).2.1
      (ClientRole.Player 3) (by simp) rfl)
  · exact (game_state_update_relay.2 [ClientRole.Host, ClientRole.Player 3] (.Player 3)
      (some (Json.obj [("type", .str "bogus")]))
      (by simp [relayCase, msgType, Json.getField, Json.asStr])).1

/-- C4: an `end` or `load game` request whose authenticated caller differs
from the session's recorded host id fails with `Forbidden` and changes
neither the store nor the connection registry, whatever the session's
status. -/
theorem non_host_forbidden (db : Db) (caller session_id now game_id : Nat)
    (sess : session.Model)
    (hfind : db.sessions.find? (fun s => s.id == session_id) = some sess)
    (hne : sess.host_id ≠ caller) :
    end_session db caller session_id now =
      (.error (.Forbidden "Only the session host can end the session."), db, []) ∧
    load_game db caller session_id game_id now =
      (.error (.Forbidden "Only the session host can load a game."), db, []) := by
  constructor
  · simp only [end_session, hfind]
    rw [if_pos hne]
  · simp only [load_game, hfind]
    rw [if_pos hne]

/-- C4 witness: caller 6 against a session hosted by 5, in `playing` status. -/
theorem non_host_forbidden_witness :
    end_session
        { sessions :=
            [{ id := 1, created_at := 0, updated_at := 0, ended_at := none, host_id := 5,
               game_id := none, game_version_id := none, session_code := "ABCDE",
               status := "playing", max_players := 8 }],
          players := [], games := [], game_versions := [] } 6 1 0 =
      (.error (.Forbidden "Only the session host can end the session."),
        { sessions :=
            [{ id := 1, created_at := 0, updated_at := 0, ended_at := none, host_id := 5,
               game_id := none, game_version_id := none, session_code := "ABCDE",
               status := "playing", max_players := 8 }],
          players := [], games := [], game_versions := [] }, []) :=
  (non_host_forbidden ⟨[⟨1, 0, 0, none, 5, none, none, "ABCDE", "playing", 8⟩], [], [], []⟩
    6 1 0 0 ⟨1, 0, 0, none, 5, none, none, "ABCDE", "playing", 8⟩ rfl (by decide)).1

/-- C6: a join request addressed to a session whose status is `ended` fails
with `BadRequest`, leaves the store untouched (no player row is created) and
makes no session-manager call, regardless of capacity or request body. -/
theorem join_ended_bad_request (db : Db) (session_code : String)
    (body : JoinSessionRequest) (now new_player_id : Nat) (sess : session.Model)
    (hfind : db.sessions.find? (fun s => s.session_code == toUppercase session_code) = some sess)
    (hended : sess.status = "ended") :
    join_session db session_code body now new_player_id =
      (.error (.BadRequest "Session has ended."), db, []) := by
  simp [join_session, hfind, hended]

/-- C6 witness: joining an ended session with a valid body and spare capacity. -/
theorem join_ended_bad_request_witness :
    join_session
        { sessions :=
            [{ id := 1, created_at := 0, updated_at := 0, ended_at := some 3, host_id := 5,
               game_id := none, game_version_id := none, session_code := "ABCDE",
               status := "ended", max_players := 8 }],
          players := [], games := [], game_versions := [] }
        "abcde" { display_name := "Alice", avatar_url := none } 4 2 =
      (.error (.BadRequest "Session has ended."),
        { sessions :=
            [{ id := 1, created_at := 0, updated_at := 0, ended_at := some 3, host_id := 5,
               game_id := none, game_version_id := none, session_code := "ABCDE",
               status := "ended", max_players := 8 }],
          players := [], games := [], game_versions := [] }, []) :=
  join_ended_bad_request ⟨[⟨1, 0, 0, some 3, 5, none, none, "ABCDE", "ended", 8⟩], [], [], []⟩
    "abcde" ⟨"Alice", none⟩ 4 2 ⟨1, 0, 0, some 3, 5, none, none, "ABCDE", "ended", 8⟩
    (by decide) rfl

/-- C8: a second `end` call by the host on an already-ended session fails
with `BadRequest` and mutates nothing — the session rows are unchanged and
no broadcast or registry removal happens. -/
theorem end_already_ended (db : Db) (host_id session_id now : Nat) (sess : session.Model)
    (hfind : db.sessions.find? (fun s => s.id == session_id) = some sess)
    (hhost : sess.host_id = host_id)
    (hended : sess.status = "ended") :
    end_session db host_id session_id now =
      (.error (.BadRequest "Session is already ended."), db, []) := by
  simp [end_session, hfind, hhost, hended]

/-- C8 witness: ending an ended session again, as its host. -/
theorem end_already_ended_witness :
    end_session
        { sessions :=
            [{ id := 1, created_at := 0, updated_at := 7, ended_at := some 7, host_id := 5,
               game_id := none, game_version_id := none, session_code := "ABCDE",
               status := "ended", max_players := 8 }],
          players := [], games := [], game_versions := [] } 5 1 9 =
      (.error (.BadRequest "Session is already ended."),
        { sessions :=
            [{ id := 1, created_at := 0, updated_at := 7, ended_at := some 7, host_id := 5,
               game_id := none, game_version_id := none, session_code := "ABCDE",
               status := "ended", max_players := 8 }],
          players := [], games := [], game_versions := [] }, []) :=
  end_already_ended _ 5 1 9 _ rfl rfl rfl

/-- C10: every successful `end` broadcasts a `session_status_change` message
whose payload carries `previousStatus` `"lobby"`, whatever the session's
status was before ending (the value is hardcoded in the handler). -/
theorem end_previous_status_always_lobby (db : Db) (host_id session_id now : Nat)
    (sess : session.Model)
    (hfind : db.sessions.find? (fun s => s.id == session_id) = some sess)
    (hhost : sess.host_id = host_id)
    (hne : sess.status ≠ "ended") :
    (end_session db host_id session_id now).1 = .ok () ∧
    (end_session db host_id session_id now).2.2 =
      [.broadcastMsg session_id
         (Json.obj [("type", .str "session_status_change"),
                    ("payload", .obj [("status", .str "ended"),
                                      ("previousStatus", .str "lobby")])]),
       .removeSessionEntry session_id] ∧
    ((Json.obj [("type", .str "session_status_change"),
                ("payload", .obj [("status", .str "ended"),
                                  ("previousStatus", .str "lobby")])]).index
        "payload").index "previousStatus" = .str "lobby" := by
  refine ⟨?_, ?_, rfl⟩ <;> simp [end_session, hfind, hhost, hne]

/-- C10 witness: ending a session whose status is `playing` still announces
`previousStatus` `"lobby"`. -/
theorem end_previous_status_always_lobby_witness :
    (end_session
        { sessions :=
            [{ id := 1, created_at := 0, updated_at := 0, ended_at := none, host_id := 5,
               game_id := some 10, game_version_id := some 100, session_code := "ABCDE",
               status := "playing", max_players := 8 }],
          players := [], games := [], game_versions := [] } 5 1 9).2.2 =
      [.broadcastMsg 1
         (Json.obj [("type", .str "session_status_change"),
                    ("payload", .obj [("status", .str "ended"),
                                      ("previousStatus", .str "lobby")])]),
       .removeSessionEntry 1] :=
  (end_previous_status_always_lobby
    ⟨[⟨1, 0, 0, none, 5, some 10, some 100, "ABCDE", "playing", 8⟩], [], [], []⟩
    5 1 9 ⟨1, 0, 0, none, 5, some 10, some 100, "ABCDE", "playing", 8⟩ rfl rfl (by decide)).2.1

/-- C5: a join request on a session whose count of active players (those
without a left-at marker) already equals `max_players` fails with
`BadRequest`, and neither the store nor the registry is touched; hence the
(`maxPlayers` + 1)-th join fails. -/
theorem join_full_bad_request (db : Db) (session_code : String) (body : JoinSessionRequest)
    (now new_player_id : Nat) (sess : session.Model)
    (hfind : db.sessions.find? (fun s => s.session_code == toUppercase session_code) = some sess)
    (hcount : ((db.players.filter
        (fun p => p.session_id == sess.id && p.left_at == none)).length : Int)
      = sess.max_players) :
    (∃ e, (join_session db session_code body now new_player_id).1 = .error e ∧
        e.isBadRequest = true) ∧
    (join_session db session_code body now new_player_id).2.1 = db ∧
    (join_session db session_code body now new_player_id).2.2 = [] := by
  by_cases hend : sess.status = "ended"
  · refine ⟨⟨.BadRequest "Session has ended.", ?_, rfl⟩, ?_, ?_⟩ <;>
      simp [join_session, hfind, hend]
  · have h0 : ¬ sess.max_players < 0 := by
      rw [← hcount]; exact not_lt.mpr (Int.natCast_nonneg _)
    have hge : (db.players.filter
          (fun p => p.session_id == sess.id && p.left_at == none)).length
        ≥ (if sess.max_players < 0 then 8 else sess.max_players.toNat) := by
      rw [if_neg h0]
      omega
    refine ⟨⟨.BadRequest "Session is full.", ?_, rfl⟩, ?_, ?_⟩ <;>
      simp [join_session, hfind, hend, hge]

/-- C5 witness: a session with capacity 1 and one active player rejects the
second join. -/
theorem join_full_bad_request_witness :
    (∃ e, (join_session
        ⟨[⟨1, 0, 0, none, 5, none, none, "ABCDE", "lobby", 1⟩],
         [⟨2, 0, 1, none, "Alice", none, "connected", none⟩], [], []⟩
        "ABCDE" ⟨"Bob", none⟩ 4 3).1 = .error e ∧ e.isBadRequest = true) ∧
    (join_session
        ⟨[⟨1, 0, 0, none, 5, none, none, "ABCDE", "lobby", 1⟩],
         [⟨2, 0, 1, none, "Alice", none, "connected", none⟩], [], []⟩
        "ABCDE" ⟨"Bob", none⟩ 4 3).2.1 =
      ⟨[⟨1, 0, 0, none, 5, none, none, "ABCDE", "lobby", 1⟩],
       [⟨2, 0, 1, none, "Alice", none, "connected", none⟩], [], []⟩ ∧
    (join_session
        ⟨[⟨1, 0, 0, none, 5, none, none, "ABCDE", "lobby", 1⟩],
         [⟨2, 0, 1, none, "Alice", none, "connected", none⟩], [], []⟩
        "ABCDE" ⟨"Bob", none⟩ 4 3).2.2 = [] :=
  join_full_bad_request
    ⟨[⟨1, 0, 0, none, 5, none, none, "ABCDE", "lobby", 1⟩],
     [⟨2, 0, 1, none, "Alice", none, "connected", none⟩], [], []⟩
    "ABCDE" ⟨"Bob", none⟩ 4 3 ⟨1, 0, 0, none, 5, none, none, "ABCDE", "lobby", 1⟩
    (by decide) (by decide)

/-- C7 counterexample: a display name of 26 four-byte characters (26
characters, 104 UTF-8 bytes, nonempty after trim) is rejected with
`BadRequest` on a joinable session, although it is not empty and not longer
than 100 characters — the handler checks `String::len`, i.e. bytes. -/
theorem join_display_name_bytes_counterexample :
    (strTrim (String.mk (List.replicate 26 '𝄞'))).length = 26 ∧
    (strTrim (String.mk (List.replicate 26 '𝄞'))).isEmpty = false ∧
    (strTrim (String.mk (List.replicate 26 '𝄞'))).utf8ByteSize = 104 ∧
    join_session ⟨[⟨1, 0, 0, none, 5, none, none, "ABCDE", "lobby", 8⟩], [], [], []⟩
        "ABCDE" ⟨String.mk (List.replicate 26 '𝄞'), none⟩ 0 2 =
      (.error (.BadRequest "Display name must be between 1 and 100 characters."),
       ⟨[⟨1, 0, 0, none, 5, none, none, "ABCDE", "lobby", 8⟩], [], [], []⟩, []) :=
  ⟨by decide, by decide, by decide, rfl⟩

/-- C7 (amended): on an existing, non-ended, non-full session the display
name is trimmed, and the join fails with `BadRequest` exactly when the
trimmed name is empty or its UTF-8 byte length exceeds 100 (the code checks
bytes, not characters); otherwise a new player row is inserted with
connection status `connected` and the trimmed display name. -/
theorem join_display_name_validation (db : Db) (session_code : String)
    (body : JoinSessionRequest) (now new_player_id : Nat) (sess : session.Model)
    (hfind : db.sessions.find? (fun s => s.session_code == toUppercase session_code) = some sess)
    (hne : sess.status ≠ "ended")
    (hroom : (db.players.filter
        (fun p => p.session_id == sess.id && p.left_at == none)).length
      < (if sess.max_players < 0 then 8 else sess.max_players.toNat)) :
    ((strTrim body.display_name).isEmpty ∨ (strTrim body.display_name).utf8ByteSize > 100 →
      join_session db session_code body now new_player_id =
        (.error (.BadRequest "Display name must be between 1 and 100 characters."), db, [])) ∧
    (¬ ((strTrim body.display_name).isEmpty ∨ (strTrim body.display_name).utf8ByteSize > 100) →
      (join_session db session_code body now new_player_id).2.1.players =
        db.players ++
          [{ id := new_player_id, created_at := now, session_id := sess.id, user_id := none,
             display_name := strTrim body.display_name, avatar_url := body.avatar_url,
             connection_status := "connected", left_at := none }] ∧
      ∃ resp, (join_session db session_code body now new_player_id).1 = .ok resp ∧
        resp.player.display_name = strTrim body.display_name ∧
        resp.player.connection_status = "connected") := by
  have hnotfull : ¬ ((db.players.filter
      (fun p => p.session_id == sess.id && p.left_at == none)).length
    ≥ (if sess.max_players < 0 then 8 else sess.max_players.toNat)) := not_le.mpr hroom
  constructor
  · intro hbad
    simp [join_session, hfind, hne, hnotfull, hbad]
  · intro hgood
    constructor
    · simp [join_session, hfind, hne, hnotfull, hgood]
    · have hj : (join_session db session_code body now new_player_id).1 =
          .ok { player := build_player_response
                  { id := new_player_id, created_at := now, session_id := sess.id,
                    user_id := none, display_name := strTrim body.display_name,
                    avatar_url := body.avatar_url, connection_status := "connected",
                    left_at := none },
                session := { id := sess.id, session_code := sess.session_code,
                             status := sess.status, host_id := sess.host_id } } := by
        simp [join_session, hfind, hne, hnotfull, hgood]
      exact ⟨_, hj, rfl, rfl⟩

/-- C7 witness: joining with display name `"  Carol  "` trims to `"Carol"`
and inserts a connected player row. -/
theorem join_display_name_validation_witness :
    (join_session ⟨[⟨1, 0, 0, none, 5, none, none, "ABCDE", "lobby", 8⟩], [], [], []⟩
        "ABCDE" ⟨"  Carol  ", none⟩ 4 2).2.1.players =
      [] ++
        [{ id := 2, created_at := 4, session_id := 1, user_id := none,
           display_name := strTrim "  Carol  ", avatar_url := none,
           connection_status := "connected", left_at := none }] ∧
    ∃ resp, (join_session ⟨[⟨1, 0, 0, none, 5, none, none, "ABCDE", "lobby", 8⟩], [], [], []⟩
        "ABCDE" ⟨"  Carol  ", none⟩ 4 2).1 = .ok resp ∧
      resp.player.display_name = strTrim "  Carol  " ∧
      resp.player.connection_status = "connected" :=
  (join_display_name_validation
    ⟨[⟨1, 0, 0, none, 5, none, none, "ABCDE", "lobby", 8⟩], [], [], []⟩
    "ABCDE" ⟨"  Carol  ", none⟩ 4 2 ⟨1, 0, 0, none, 5, none, none, "ABCDE", "lobby", 8⟩
    (by decide) (by decide) (by decide)).2 (by decide)

/-- C3: the fallback version lookup of `load_game` (game in `published`
status with no `published_version_id`) runs with no ORDER BY and takes the
first stored version, not the latest: on a game whose versions are
(id 100, version 1) then (id 101, version 2) in table order, the session is
persisted with version id 100 although the latest version is 101. -/
theorem load_game_fallback_not_latest :
    (load_game ⟨[⟨1, 0, 0, none, 5, none, none, "ABCDE", "lobby", 8⟩], [],
        [⟨10, "published", none⟩],
        [⟨100, 0, 10, 1, none, none, none⟩, ⟨101, 1, 10, 2, none, none, none⟩]⟩ 5 1 10 7).1 =
      .ok { session_id := 1, game_id := 10, game_version_id := 100, status := "playing" } ∧
    (((⟨[⟨1, 0, 0, none, 5, none, none, "ABCDE", "lobby", 8⟩], [],
        [⟨10, "published", none⟩],
        [⟨100, 0, 10, 1, none, none, none⟩,
         ⟨101, 1, 10, 2, none, none, none⟩]⟩ : Db).game_versions.filter
          (fun v => v.game_id == 10)).map (fun v => (v.id, v.version_number)))
      = [(100, 1), (101, 2)] ∧
    (∀ s ∈ (load_game ⟨[⟨1, 0, 0, none, 5, none, none, "ABCDE", "lobby", 8⟩], [],
        [⟨10, "published", none⟩],
        [⟨100, 0, 10, 1, none, none, none⟩,
         ⟨101, 1, 10, 2, none, none, none⟩]⟩ 5 1 10 7).2.1.sessions,
      s.game_version_id = some 100) :=
  ⟨rfl, by decide, by decide⟩
